import Mathlib

/-!
Shallow embedding of the RAG document-assistant backend
(backend/app/services/document_processor.py, vector_store.py,
rag_service.py, inngest_service.py and backend/app/api/routes.py),
with theorems settling the specification claims about chunking,
ingestion, vector storage, search formatting and the query pipeline.

Python strings are modelled as lists of characters (`Str`), Python
dicts as association lists (`Dict`) whose lookup takes the first
matching key; dict merge `\x7b**d, **upd\x7d` is modelled by `dictMerge`,
which is extensionally the same mapping (update keys win).
-/

namespace RAG

/-- Python strings, modelled at character granularity so that the
character-level chunking arithmetic is expressible. -/
abbrev Str := List Char

/-- A value stored in a metadata / payload dictionary: the repository
stores strings (document id, filename, path) and integers (chunk
index, total count). -/
inductive Value where
  | str (s : Str)
  | int (n : Int)
deriving DecidableEq, Repr

/-- A Python dict, as an association list; lookup returns the first
binding of a key. -/
abbrev Dict := List (String × Value)

/-- Python dict merge `\x7b**d, **upd\x7d`: keys of `upd` win over keys of
`d`.  Represented so that `List.lookup` agrees with the Python dict:
bindings of `d` whose key is overridden are dropped, then `upd` is
appended. -/
def dictMerge (d upd : Dict) : Dict :=
  d.filter (fun kv => ((upd.lookup kv.1).isNone : Bool)) ++ upd

/-- One chunk produced by `DocumentProcessor.chunk_text`
(document_processor.py lines 59-69): text content plus a metadata
dict. -/
structure Chunk where
  content : Str
  metadata : Dict
deriving DecidableEq, Repr

/-- `DocumentProcessor.chunk_text` (document_processor.py lines 44-71):
splits `text` with the configured splitter, then in a second pass
attaches to the chunk at position `i` the metadata
`\x7b**metadata, "chunk_index": i, "total_chunks": len(chunks)\x7d`.
The splitter is the constructor-configured dependency, passed here as a
function argument. -/
def chunk_text (split : Str → List Str) (text : Str) (metadata : Dict) :
    List Chunk :=
  let chunks := split text
  chunks.enum.map fun ic =>
    { content := ic.2
      metadata := dictMerge metadata
        [("chunk_index", Value.int ic.1), ("total_chunks", Value.int chunks.length)] }

/-- Modelled from the spec: the text splitter itself is
`langchain.RecursiveCharacterTextSplitter`, external library code not
in this repository.  The spec (section 4.2) describes it as splitting
text into segments of at most `chunk_size` characters, consecutive
segments overlapping by `chunk_overlap` characters, and an empty
sequence for empty input.  The `chunk_size ≤ chunk_overlap` branch is
unreachable under the spec constraint `chunk_overlap < chunk_size` and
exists only for termination. -/
def split_text (chunk_size chunk_overlap : Nat) (s : Str) : List Str :=
  if s = [] then []
  else if s.length ≤ chunk_size then [s]
  else if chunk_size ≤ chunk_overlap then [s]
  else s.take chunk_size ::
    split_text chunk_size chunk_overlap (s.drop (chunk_size - chunk_overlap))
termination_by s.length
decreasing_by
  simp only [List.length_drop]
  omega

/-- Concatenation of the distinct (non-overlapping) regions of a chunk
sequence: the first chunk whole, every later chunk minus its first
`overlap` characters (the part it shares with its predecessor). -/
def overlapJoin (overlap : Nat) : List Str → Str
  | [] => []
  | c :: rest => c ++ (rest.map (List.drop overlap)).flatten

/-! ### Dictionary lemmas -/

/-- Lookup distributes over append: the left list is consulted first. -/
theorem lookup_append (k : String) (l₁ l₂ : Dict) :
    (l₁ ++ l₂).lookup k =
      match l₁.lookup k with
      | some v => some v
      | none => l₂.lookup k := by
  induction l₁ with
  | nil => simp [List.lookup]
  | cons kv t ih =>
    obtain ⟨a, b⟩ := kv
    by_cases h : k = a
    · simp [List.lookup, h]
    · have hb : (k == a) = false := by simp [h]
      simp [List.lookup, hb, ih]

/-- After dropping the bindings whose key occurs in `upd`, a key of
`upd` is no longer found. -/
theorem lookup_filter_isNone (upd : Dict) (k : String) (d : Dict)
    (h : (upd.lookup k).isSome) :
    (d.filter (fun kv => ((upd.lookup kv.1).isNone : Bool))).lookup k = none := by
  induction d with
  | nil => simp [List.lookup]
  | cons kv t ih =>
    obtain ⟨a, b⟩ := kv
    by_cases hak : a = k
    · subst hak
      have hf : ((upd.lookup a).isNone : Bool) = false := by
        obtain ⟨v, hv⟩ := Option.isSome_iff_exists.mp h
        simp [hv]
      simp [List.filter, hf, ih]
    · have hb : (k == a) = false := by simp [Ne.symm hak]
      by_cases hk : ((upd.lookup a).isNone : Bool) = true
      · simp [List.filter, hk, List.lookup, hb, ih]
      · simp only [Bool.not_eq_true] at hk
        simp [List.filter, hk, ih]

/-- In a merged dict, a key bound by the update maps to the update's
value (Python: later keys win). -/
theorem lookup_dictMerge (d upd : Dict) (k : String) (v : Value)
    (h : upd.lookup k = some v) :
    (dictMerge d upd).lookup k = some v := by
  rw [dictMerge, lookup_append, lookup_filter_isNone upd k d (by simp [h])]
  exact h

/-! ### Chunker: metadata attachment (C1) -/

/-- `chunk_text` returns one chunk per splitter segment. -/
theorem chunk_text_length (split : Str → List Str) (text : Str) (metadata : Dict) :
    (chunk_text split text metadata).length = (split text).length := by
  simp [chunk_text]

/-- The contents of the chunks are exactly the splitter's segments, in
order. -/
theorem chunk_text_contents (split : Str → List Str) (text : Str) (metadata : Dict) :
    (chunk_text split text metadata).map (fun c => c.content) = split text := by
  simp only [chunk_text, List.map_map]
  have : ((fun c => Chunk.content c) ∘ fun ic : Nat × Str =>
      ({ content := ic.2
         metadata := dictMerge metadata
           [("chunk_index", Value.int ic.1),
            ("total_chunks", Value.int (split text).length)] } : Chunk)) =
      Prod.snd := rfl
  rw [this, List.enum_map_snd]

/-- C1.  The chunk at position `i` carries metadata equal to the base
metadata merged with `chunk_index = i` and `total_chunks` = the length
of the returned sequence; hence looking up `chunk_index` yields `i`
(strictly increasing from 0 along the sequence) and looking up
`total_chunks` yields the same sequence length on every chunk. -/
theorem chunk_text_spec (split : Str → List Str) (text : Str) (metadata : Dict)
    (i : Nat) (h : i < (chunk_text split text metadata).length) :
    ((chunk_text split text metadata).get ⟨i, h⟩).metadata =
      dictMerge metadata
        [("chunk_index", Value.int i),
         ("total_chunks", Value.int (chunk_text split text metadata).length)]
    ∧ ((chunk_text split text metadata).get ⟨i, h⟩).metadata.lookup "chunk_index"
        = some (Value.int i)
    ∧ ((chunk_text split text metadata).get ⟨i, h⟩).metadata.lookup "total_chunks"
        = some (Value.int (chunk_text split text metadata).length) := by
  have hlen : (chunk_text split text metadata).length = (split text).length :=
    chunk_text_length split text metadata
  have hmeta : ((chunk_text split text metadata).get ⟨i, h⟩).metadata =
      dictMerge metadata
        [("chunk_index", Value.int i),
         ("total_chunks", Value.int (split text).length)] := by
    simp [chunk_text, List.get_eq_getElem, List.getElem_map, List.getElem_enum]
  have hv : (Value.int ((chunk_text split text metadata).length : Int)) =
      Value.int (((split text).length : Int)) := by rw [hlen]
  rw [hv]
  refine ⟨hmeta, ?_, ?_⟩
  · rw [hmeta]
    apply lookup_dictMerge
    simp [List.lookup]
  · rw [hmeta]
    apply lookup_dictMerge
    simp [List.lookup]

/-- Witness for C1 on a concrete splitter, text and base metadata. -/
theorem chunk_text_spec_witness :
    0 < (chunk_text (fun s => [s]) "ab".toList
          [("document_id", Value.str "d".toList)]).length
    ∧ ((chunk_text (fun s => [s]) "ab".toList
          [("document_id", Value.str "d".toList)]).get ⟨0, by decide⟩).metadata.lookup
        "chunk_index" = some (Value.int 0) :=
  ⟨by decide,
   (chunk_text_spec (fun s => [s]) "ab".toList
      [("document_id", Value.str "d".toList)] 0 (by decide)).2.1⟩

/-! ### Chunker: reconstruction from overlapping chunks (C2) -/

/-- Dropping the first `ov` characters of every segment and
concatenating yields the input minus its first `ov` characters. -/
theorem split_text_flatten_drop (cs ov : Nat) (h2 : ov < cs) (s : Str) :
    ((split_text cs ov s).map (List.drop ov)).flatten = s.drop ov := by
  generalize hn : s.length = n
  induction n using Nat.strong_induction_on generalizing s with
  | _ n ih =>
    rw [split_text]
    by_cases h0 : s = []
    · simp [h0]
    · rw [if_neg h0]
      by_cases hle : s.length ≤ cs
      · simp [hle]
      · rw [if_neg hle, if_neg (by omega)]
        have hlt : (s.drop (cs - ov)).length < n := by
          simp only [List.length_drop]
          have : s.length ≠ 0 := by simp [h0]
          omega
        rw [List.map_cons, List.flatten_cons,
          ih (s.drop (cs - ov)).length hlt (s.drop (cs - ov)) rfl]
        rw [List.drop_take, List.drop_drop]
        have htail : List.drop (cs - ov + ov) s =
            List.drop (cs - ov) (List.drop ov s) := by
          rw [List.drop_drop]
          congr 1
          omega
        rw [htail]
        exact List.take_append_drop _ _

/-- C2.  For chunk_size ≥ 1 and chunk_overlap < chunk_size,
concatenating the distinct (non-overlapping) regions of the chunks
returned by the chunker — the first chunk whole, each later chunk minus
the `chunk_overlap` characters it shares with its predecessor —
reconstructs the input text. -/
theorem chunk_reconstruct (cs ov : Nat) (h1 : 1 ≤ cs) (h2 : ov < cs)
    (text : Str) (md : Dict) :
    overlapJoin ov
      ((chunk_text (split_text cs ov) text md).map (fun c => c.content)) = text := by
  rw [chunk_text_contents]
  rw [split_text]
  by_cases h0 : text = []
  · simp [h0, overlapJoin]
  · rw [if_neg h0]
    by_cases hle : text.length ≤ cs
    · simp [hle, overlapJoin]
    · rw [if_neg hle, if_neg (by omega)]
      rw [overlapJoin]
      rw [split_text_flatten_drop cs ov h2]
      rw [List.drop_drop]
      have hcs : cs - ov + ov = cs := by omega
      rw [hcs]
      exact List.take_append_drop _ _

/-- Witness for C2 with chunk_size 4, overlap 2 and a 10-character
text. -/
theorem chunk_reconstruct_witness :
    1 ≤ 4 ∧ 2 < 4
    ∧ overlapJoin 2
        ((chunk_text (split_text 4 2) "abcdefghij".toList []).map
          (fun c => c.content)) = "abcdefghij".toList :=
  ⟨by decide, by decide, chunk_reconstruct 4 2 (by decide) (by decide) _ _⟩

/-! ### Query pipeline (routes.py query_documents, C3) -/

/-- One retrieved match as formatted by `VectorStore.search`
(vector_store.py lines 128-140): content value, metadata dict and
similarity score (scores are opaque to the control flow modelled here). -/
structure RetrievedDoc where
  content : Value
  metadata : Dict
  score : Int
deriving DecidableEq, Repr

/-- The dict returned by `RAGService.generate_answer` (rag_service.py
lines 69-73): answer text, processing time, and the context documents
echoed back as sources. -/
structure GenResult where
  answer : Str
  processing_time : Int
  sources : List RetrievedDoc
deriving DecidableEq, Repr

/-- `QueryResponse` (schemas.py): what the endpoint returns on
success. -/
structure QueryResponse where
  query : Str
  answer : Str
  sources : List RetrievedDoc
  processing_time : Int
deriving DecidableEq, Repr

/-- Outcome of the query endpoint: the HTTP result (error status code
or response body) plus whether the language model was invoked
(`rag_service.generate_answer` reached). -/
structure QueryOutcome where
  response : Except Nat QueryResponse
  llmCalled : Bool
deriving Repr

/-- `query_documents` (routes.py lines 135-169): searches the index,
raises HTTP 404 when no documents come back, otherwise calls
`rag_service.generate_answer` and shapes the response.  The search
result and the answer generator are the collaborators, passed as
arguments. -/
def query_documents (search_results : List RetrievedDoc)
    (generate_answer : Str → List RetrievedDoc → GenResult) (query : Str) :
    QueryOutcome :=
  if search_results = [] then
    { response := .error 404, llmCalled := false }
  else
    let result := generate_answer query search_results
    { response := .ok
        { query := query
          answer := result.answer
          sources := result.sources
          processing_time := result.processing_time }
      llmCalled := true }

/-- C3.  When the vector search yields zero matches the endpoint
reports HTTP 404 ("no relevant documents found") and the language model
is never invoked; the answer synthesizer is invoked exactly when at
least one match is returned. -/
theorem query_documents_spec
    (generate_answer : Str → List RetrievedDoc → GenResult) (query : Str) :
    (query_documents [] generate_answer query).response = .error 404
    ∧ (query_documents [] generate_answer query).llmCalled = false
    ∧ ∀ docs : List RetrievedDoc, docs ≠ [] →
        (query_documents docs generate_answer query).llmCalled = true := by
  refine ⟨rfl, rfl, ?_⟩
  intro docs hd
  simp [query_documents, hd]

/-- Witness for C3 at a concrete generator, query and non-empty search
result. -/
theorem query_documents_spec_witness :
    (query_documents [] (fun _ _ => ⟨[], 0, []⟩) "q".toList).response = .error 404
    ∧ ([⟨Value.str [], [], 0⟩] : List RetrievedDoc) ≠ []
    ∧ (query_documents [⟨Value.str [], [], 0⟩]
        (fun _ _ => ⟨[], 0, []⟩) "q".toList).llmCalled = true :=
  ⟨(query_documents_spec (fun _ _ => ⟨[], 0, []⟩) "q".toList).1,
   by decide,
   (query_documents_spec (fun _ _ => ⟨[], 0, []⟩) "q".toList).2.2
     [⟨Value.str [], [], 0⟩] (by decide)⟩

/-! ### Ingestion pipeline (inngest_service.py, C4) -/

/-- Observable side effects of one run of
`process_document_function`, in execution order. -/
inductive Event where
  | processedPdf
  | storedEmbeddings
  | deletedFile
deriving DecidableEq, Repr

/-- Result of one pipeline run: the returned success flag, the ordered
trace of completed side effects, and whether the source file was
removed. -/
structure PipelineRun where
  success : Bool
  trace : List Event
  fileDeleted : Bool
deriving DecidableEq, Repr

/-- `process_document_function` (inngest_service.py lines 43-87):
step 1 processes the PDF into chunks, step 2 stores all chunks in the
vector index, step 3 deletes the source file; any exception is caught
at the top and turned into a `success: false` return with no cleanup.
The fallible stages are the collaborators, passed as `Except`-valued
arguments (the error carries the exception message). -/
def process_document_function
    (process_pdf : Except Str (List Chunk))
    (store_embeddings : List Chunk → Except Str (List Nat)) : PipelineRun :=
  match process_pdf with
  | .error _ => { success := false, trace := [], fileDeleted := false }
  | .ok chunks =>
    match store_embeddings chunks with
    | .error _ =>
        { success := false, trace := [.processedPdf], fileDeleted := false }
    | .ok _ =>
        { success := true
          trace := [.processedPdf, .storedEmbeddings, .deletedFile]
          fileDeleted := true }

/-- C4.  If the pipeline reports success, the chunks were stored in
the vector index strictly before the source file was deleted
(storage write happens-before file deletion in the trace); if any
stage fails, the run reports failure and the source file is left in
place (never deleted). -/
theorem process_document_function_spec
    (process_pdf : Except Str (List Chunk))
    (store_embeddings : List Chunk → Except Str (List Nat)) :
    ((process_document_function process_pdf store_embeddings).success = true →
      Event.storedEmbeddings ∈
          (process_document_function process_pdf store_embeddings).trace
      ∧ (process_document_function process_pdf store_embeddings).trace.indexOf
            Event.storedEmbeddings <
          (process_document_function process_pdf store_embeddings).trace.indexOf
            Event.deletedFile
      ∧ (process_document_function process_pdf store_embeddings).fileDeleted = true)
    ∧ ((process_document_function process_pdf store_embeddings).success = false →
      (process_document_function process_pdf store_embeddings).fileDeleted = false
      ∧ Event.deletedFile ∉
          (process_document_function process_pdf store_embeddings).trace) := by
  match hp : process_pdf with
  | .error e =>
    have hrun : process_document_function (.error e) store_embeddings =
        { success := false, trace := [], fileDeleted := false } := rfl
    rw [hrun]
    exact ⟨fun h => by simp at h, fun _ => ⟨rfl, by decide⟩⟩
  | .ok chunks =>
    match hs : store_embeddings chunks with
    | .error e =>
      have hrun : process_document_function (.ok chunks) store_embeddings =
          { success := false, trace := [.processedPdf], fileDeleted := false } := by
        simp [process_document_function, hs]
      rw [hrun]
      exact ⟨fun h => by simp at h, fun _ => ⟨rfl, by decide⟩⟩
    | .ok ids =>
      have hrun : process_document_function (.ok chunks) store_embeddings =
          { success := true
            trace := [.processedPdf, .storedEmbeddings, .deletedFile]
            fileDeleted := true } := by
        simp [process_document_function, hs]
      rw [hrun]
      exact ⟨fun _ => ⟨by decide, by decide, rfl⟩, fun h => by simp at h⟩

/-- Witness for C4: a run whose stages both succeed reports success
with storage strictly before deletion, and a run whose storage stage
fails leaves the file in place. -/
theorem process_document_function_spec_witness :
    (process_document_function (.ok []) (fun _ => .ok [])).success = true
    ∧ (process_document_function (.ok []) (fun _ => .ok [])).trace.indexOf
          Event.storedEmbeddings <
        (process_document_function (.ok []) (fun _ => .ok [])).trace.indexOf
          Event.deletedFile
    ∧ (process_document_function (.ok [])
        (fun _ => .error "boom".toList)).fileDeleted = false :=
  ⟨rfl,
   ((process_document_function_spec (.ok []) (fun _ => .ok [])).1 rfl).2.1,
   ((process_document_function_spec (.ok [])
      (fun _ => .error "boom".toList)).2 rfl).1⟩

/-! ### DocumentProcessor construction (C5) -/

/-- The state held by a constructed `DocumentProcessor`
(document_processor.py lines 18-19). -/
structure DocumentProcessor where
  chunk_size : Int
  chunk_overlap : Int
deriving DecidableEq, Repr

/-- The exception raised by the external splitter constructor on an
oversized overlap: the generic ValueError, not a domain error type. -/
inductive SplitterInitError where
  | valueError
deriving DecidableEq, Repr

/-- Constructor `DocumentProcessor.__init__` (document_processor.py
lines 11-24): stores `chunk_size` and `chunk_overlap` unchanged and
builds the external `RecursiveCharacterTextSplitter` with them.  The
repository code adds no validation of its own and defines no
`ConfigurationError`.  Modelled from the spec: the splitter
constructor is external library code absent from src/ (spec 4.2 asks
that `chunk_overlap < chunk_size` be enforced); the external
constructor rejects `chunk_overlap > chunk_size` with a generic
ValueError and accepts every other combination — in particular
`chunk_overlap = chunk_size` and `chunk_size < 1` pass unchecked. -/
def DocumentProcessor.init (chunk_size chunk_overlap : Int) :
    Except SplitterInitError DocumentProcessor :=
  if chunk_size < chunk_overlap then .error .valueError
  else .ok { chunk_size := chunk_size, chunk_overlap := chunk_overlap }

/-- Counterexample to C5: constructing with chunk_size = 0 (< 1) and
chunk_overlap = 0 (≥ chunk_size) succeeds instead of being rejected
with a ConfigurationError. -/
theorem DocumentProcessor.init_no_validation :
    DocumentProcessor.init 0 0 = .ok { chunk_size := 0, chunk_overlap := 0 }
    ∧ (0 : Int) < 1 ∧ (0 : Int) ≥ 0 := by
  refine ⟨rfl, by decide, by decide⟩

/-- C5 (amended).  Construction fails — with the external splitter's
generic ValueError, never a ConfigurationError (none exists in the
code) — exactly when chunk_overlap exceeds chunk_size; every other
combination is accepted with both values stored unchanged, including
the invalid configurations chunk_size < 1 and
chunk_overlap = chunk_size. -/
theorem DocumentProcessor.init_spec (chunk_size chunk_overlap : Int) :
    (chunk_size < chunk_overlap →
      DocumentProcessor.init chunk_size chunk_overlap = .error .valueError)
    ∧ (chunk_overlap ≤ chunk_size →
      DocumentProcessor.init chunk_size chunk_overlap =
        .ok { chunk_size := chunk_size, chunk_overlap := chunk_overlap }) := by
  constructor
  · intro h
    unfold DocumentProcessor.init
    rw [if_pos h]
  · intro h
    unfold DocumentProcessor.init
    rw [if_neg (not_lt.mpr h)]

/-- Witness for the amended C5: overlap 7 > size 5 is rejected with
the ValueError, while the boundary overlap 5 = size 5 is accepted. -/
theorem DocumentProcessor.init_spec_witness :
    ((5 : Int) < 7 ∧ DocumentProcessor.init 5 7 = .error .valueError)
    ∧ ((5 : Int) ≤ 5 ∧ DocumentProcessor.init 5 5 =
        .ok { chunk_size := 5, chunk_overlap := 5 }) :=
  ⟨⟨by decide, (DocumentProcessor.init_spec 5 7).1 (by decide)⟩,
   ⟨by decide, (DocumentProcessor.init_spec 5 5).2 (by decide)⟩⟩

/-! ### VectorStore.add_documents and batching (C6) -/

/-- A Qdrant point as built by `VectorStore.add_documents`
(vector_store.py lines 87-94): storage identifier, embedding vector
and payload.  The `str(uuid.uuid4())` identifiers are modelled as
values drawn from a fresh-identifier source. -/
structure PointStruct where
  id : Nat
  vector : List Int
  payload : Dict
deriving DecidableEq, Repr

/-- `VectorStore.add_documents` (vector_store.py lines 66-106), up to
the batched upload: for each chunk in order, generates an embedding,
draws a fresh point id, and builds the point whose payload is
`\x7b"content": chunk content, **metadata\x7d`; returns the points together
with the collected point ids.  The uuid source and the embedder are
the collaborators, passed as arguments. -/
def add_documents (gen_uuid : Nat → Nat) (embed : Str → List Int)
    (chunks : List Chunk) : List PointStruct × List Nat :=
  let points := chunks.enum.map fun ic =>
    { id := gen_uuid ic.1
      vector := embed ic.2.content
      payload := dictMerge [("content", Value.str ic.2.content)] ic.2.metadata }
  (points, points.map (fun p => p.id))

/-- The batch slicing `points[i:i+batch_size]` for
`i in range(0, len(points), batch_size)` (vector_store.py lines
98-100).  The `k = 0` branch is unreachable for the fixed batch size
100 and exists only for termination. -/
def batchesOf (k : Nat) (l : List α) : List (List α) :=
  if l.length = 0 then []
  else if k = 0 then [l]
  else l.take k :: batchesOf k (l.drop k)
termination_by l.length
decreasing_by
  simp only [List.length_drop]
  omega

/-- One `client.upsert` call appends the batch to the collection
(fresh uuid ids never collide, so an upsert of new points is an
append). -/
def upsert (store batch : List PointStruct) : List PointStruct :=
  store ++ batch

/-- The upload loop (vector_store.py lines 99-104): upsert the batches
one after the other. -/
def upsertBatches (store : List PointStruct)
    (batches : List (List PointStruct)) : List PointStruct :=
  batches.foldl upsert store

/-- Slicing into batches loses and reorders nothing. -/
theorem batchesOf_flatten (k : Nat) (hk : 0 < k) (l : List α) :
    (batchesOf k l).flatten = l := by
  generalize hn : l.length = n
  induction n using Nat.strong_induction_on generalizing l with
  | _ n ih =>
    rw [batchesOf]
    by_cases h0 : l.length = 0
    · rw [if_pos h0]
      simp [List.length_eq_zero.mp h0]
    · rw [if_neg h0, if_neg (by omega)]
      rw [List.flatten_cons,
        ih (l.drop k).length (by simp only [List.length_drop]; omega)
          (l.drop k) rfl]
      exact List.take_append_drop _ _

/-- Every batch has at most `k` elements. -/
theorem batchesOf_mem_length (k : Nat) (hk : 0 < k) (l : List α) :
    ∀ b ∈ batchesOf k l, b.length ≤ k := by
  generalize hn : l.length = n
  induction n using Nat.strong_induction_on generalizing l with
  | _ n ih =>
    rw [batchesOf]
    by_cases h0 : l.length = 0
    · simp [h0]
    · rw [if_neg h0, if_neg (by omega)]
      intro b hb
      rcases List.mem_cons.mp hb with hb | hb
      · subst hb
        simp [List.length_take]
      · exact ih (l.drop k).length (by simp only [List.length_drop]; omega)
          (l.drop k) rfl b hb

/-- Sequentially upserting the batches appends their concatenation. -/
theorem upsertBatches_eq (batches : List (List PointStruct))
    (store : List PointStruct) :
    upsertBatches store batches = store ++ batches.flatten := by
  induction batches generalizing store with
  | nil => simp [upsertBatches]
  | cons b t ih =>
    simp only [upsertBatches, List.foldl_cons, List.flatten_cons] at *
    rw [ih (upsert store b)]
    simp [upsert]

/-- C6.  With an injective fresh-identifier source, `add_documents`
returns exactly one identifier per input chunk in input order (the
identifiers drawn at positions 0, 1, …), all identifiers distinct;
the upload splits the points into batches of at most 100, and
performing the batched upserts yields the same stored collection as a
single upsert of all points. -/
theorem add_documents_spec (gen_uuid : Nat → Nat) (embed : Str → List Int)
    (hgen : Function.Injective gen_uuid) (chunks : List Chunk)
    (store : List PointStruct) :
    (add_documents gen_uuid embed chunks).2 =
        (List.range chunks.length).map gen_uuid
    ∧ (add_documents gen_uuid embed chunks).2.length = chunks.length
    ∧ (add_documents gen_uuid embed chunks).2.Nodup
    ∧ (∀ b ∈ batchesOf 100 (add_documents gen_uuid embed chunks).1,
        b.length ≤ 100)
    ∧ upsertBatches store (batchesOf 100 (add_documents gen_uuid embed chunks).1)
        = upsert store (add_documents gen_uuid embed chunks).1 := by
  have hids : (add_documents gen_uuid embed chunks).2 =
      (List.range chunks.length).map gen_uuid := by
    simp only [add_documents, List.map_map]
    rw [show ((fun p : PointStruct => p.id) ∘ fun ic : Nat × Chunk =>
        ({ id := gen_uuid ic.1
           vector := embed ic.2.content
           payload := dictMerge [("content", Value.str ic.2.content)] ic.2.metadata } :
          PointStruct)) = (fun ic : Nat × Chunk => gen_uuid ic.1) from rfl]
    rw [show (fun ic : Nat × Chunk => gen_uuid ic.1) =
        gen_uuid ∘ Prod.fst from rfl]
    rw [← List.map_map, List.enum_map_fst]
  refine ⟨hids, ?_, ?_, ?_, ?_⟩
  · rw [hids]
    simp
  · rw [hids]
    exact (List.nodup_range chunks.length).map hgen
  · exact batchesOf_mem_length 100 (by omega) _
  · rw [upsertBatches_eq, batchesOf_flatten 100 (by omega)]
    rfl

/-- Witness for C6: two chunks, identity uuid source. -/
theorem add_documents_spec_witness :
    Function.Injective (fun n : Nat => n)
    ∧ (add_documents (fun n => n) (fun _ => [])
        [⟨"a".toList, []⟩, ⟨"b".toList, []⟩]).2 = [0, 1]
    ∧ (add_documents (fun n => n) (fun _ => [])
        [⟨"a".toList, []⟩, ⟨"b".toList, []⟩]).2.Nodup :=
  ⟨fun a b h => h,
   by
    rw [(add_documents_spec (fun n => n) (fun _ => []) (fun a b h => h)
      [⟨"a".toList, []⟩, ⟨"b".toList, []⟩] []).1]
    decide,
   (add_documents_spec (fun n => n) (fun _ => []) (fun a b h => h)
      [⟨"a".toList, []⟩, ⟨"b".toList, []⟩] []).2.2.1⟩

/-! ### VectorStore.generate_embedding (C7) -/

/-- One element of the `data` array of an OpenAI embeddings
response. -/
structure EmbeddingItem where
  embedding : List Int
deriving DecidableEq, Repr

/-- The OpenAI embeddings response as consumed by the code: only the
`data` array is read. -/
structure EmbeddingResponse where
  data : List EmbeddingItem
deriving DecidableEq, Repr

/-- The Python exception raised by `response.data[0]` on an empty
list; it is the generic runtime error, not a domain error type. -/
inductive PyErr where
  | indexError
deriving DecidableEq, Repr

/-- `self.embedding_dimension` (vector_store.py line 33): the
dimensionality the store's collection is configured with. -/
def embedding_dimension : Nat := 1536

/-- `VectorStore.generate_embedding` (vector_store.py lines 51-64):
returns `response.data[0].embedding` with no validation whatsoever;
the external response is the collaborator, passed as an argument. -/
def generate_embedding (response : EmbeddingResponse) :
    Except PyErr (List Int) :=
  match response.data with
  | [] => .error .indexError
  | item :: _ => .ok item.embedding

/-- Counterexample to C7: a response whose first embedding has length
2 (≠ the configured 1536) is returned as-is instead of failing with an
EmbeddingError. -/
theorem generate_embedding_no_shape_check :
    generate_embedding ⟨[⟨[0, 0]⟩]⟩ = .ok [0, 0]
    ∧ ([0, 0] : List Int).length ≠ embedding_dimension := by
  exact ⟨rfl, by decide⟩

/-- C7 (amended).  `generate_embedding` performs no shape validation:
for any response with a non-empty data array it returns the first
item's embedding unchanged, whatever its dimensionality, and for an
empty data array it fails with the generic IndexError of the
subscript, not with an EmbeddingError (no such error type exists in
the code). -/
theorem generate_embedding_total (item : EmbeddingItem)
    (rest : List EmbeddingItem) :
    generate_embedding ⟨item :: rest⟩ = .ok item.embedding
    ∧ generate_embedding ⟨[]⟩ = .error .indexError :=
  ⟨rfl, rfl⟩

/-! ### VectorStore.search result formatting (C8, C10) -/

/-- One raw hit as returned by the Qdrant client: the stored payload
and the similarity score (only these two fields are read by the
formatting loop). -/
structure SearchHit where
  payload : Dict
  score : Int
deriving DecidableEq, Repr

/-- The result-formatting loop body of `VectorStore.search`
(vector_store.py lines 130-138): content is `payload.get("content", "")`
and metadata is the payload with the `"content"` key removed. -/
def formatResult (r : SearchHit) : RetrievedDoc :=
  { content := (r.payload.lookup "content").getD (Value.str [])
    metadata := r.payload.filter (fun kv => (kv.1 != "content" : Bool))
    score := r.score }

/-- `VectorStore.search` after the backend call: formats every raw
hit, in order. -/
def search (hits : List SearchHit) : List RetrievedDoc :=
  hits.map formatResult

/-- Removing a key by filtering leaves no binding of that key. -/
theorem lookup_filter_self (key : String) (l : Dict) :
    (l.filter (fun kv => (kv.1 != key : Bool))).lookup key = none := by
  induction l with
  | nil => simp [List.lookup]
  | cons kv t ih =>
    obtain ⟨a, b⟩ := kv
    by_cases h : a = key
    · simp [List.filter, h, ih]
    · have hb : (a != key) = true := by simp [h]
      have hbk : (key == a) = false := by simp [Ne.symm h]
      simp [List.filter, hb, List.lookup, hbk, ih]

/-- Filtering out one key does not change lookup at any other key. -/
theorem lookup_filter_ne (key k : String) (hne : k ≠ key) (l : Dict) :
    (l.filter (fun kv => (kv.1 != key : Bool))).lookup k = l.lookup k := by
  induction l with
  | nil => simp
  | cons kv t ih =>
    obtain ⟨a, b⟩ := kv
    by_cases h : a = key
    · have hbk : (k == a) = false := by simp [h, hne]
      have hkk : (k == key) = false := by simp [hne]
      simp [List.filter, h, List.lookup, hbk, hkk, ih]
    · have hb : (a != key) = true := by simp [h]
      by_cases hka : k = a
      · simp [List.filter, hb, List.lookup, hka]
      · have hbk : (k == a) = false := by simp [hka]
        simp [List.filter, hb, List.lookup, hbk, ih]

/-- C10.  Every formatted match has a metadata dict in which the
`"content"` key is absent, the metadata is exactly the stored payload
with the `"content"` bindings removed, and the content field is the
payload's `"content"` value, defaulting to the empty string when the
payload lacks it. -/
theorem search_format_spec (hits : List SearchHit) (d : RetrievedDoc)
    (hd : d ∈ search hits) :
    d.metadata.lookup "content" = none
    ∧ ∃ h ∈ hits,
        d.content = (h.payload.lookup "content").getD (Value.str [])
        ∧ ∀ kv : String × Value,
            kv ∈ d.metadata ↔ kv ∈ h.payload ∧ kv.1 ≠ "content" := by
  obtain ⟨h, hh, rfl⟩ := List.mem_map.mp hd
  refine ⟨lookup_filter_self _ _, h, hh, rfl, ?_⟩
  intro kv
  simp [formatResult, List.mem_filter]

/-- Witness for C10 on a payload holding content and a document id. -/
theorem search_format_spec_witness :
    (formatResult ⟨[("content", Value.str "c".toList),
        ("document_id", Value.str "d".toList)], 3⟩) ∈
      search [⟨[("content", Value.str "c".toList),
        ("document_id", Value.str "d".toList)], 3⟩]
    ∧ (formatResult ⟨[("content", Value.str "c".toList),
        ("document_id", Value.str "d".toList)], 3⟩).metadata.lookup "content"
        = none :=
  ⟨by simp [search],
   (search_format_spec [⟨[("content", Value.str "c".toList),
      ("document_id", Value.str "d".toList)], 3⟩] _ (by simp [search])).1⟩

/-! ### VectorStore.delete_by_document_id (C8) -/

/-- Whether a stored point belongs to the given document: its payload
binds `"document_id"` to that value. -/
def matchesDocumentId (docId : Str) (p : PointStruct) : Bool :=
  p.payload.lookup "document_id" == some (Value.str docId)

/-- Modelled from the spec: the Qdrant `client.delete` call with the
must/match filter built at vector_store.py lines 148-160 is executed
by the external backend; per the spec's Vector Index contract it
removes exactly the points whose payload value at the filter key
equals the filter value. -/
def client_delete_filter (key : String) (v : Value)
    (store : List PointStruct) : List PointStruct :=
  store.filter (fun p => (!(p.payload.lookup key == some v) : Bool))

/-- `VectorStore.delete_by_document_id` (vector_store.py lines
142-160): delete with the filter `document_id == docId`. -/
def delete_by_document_id (store : List PointStruct) (docId : Str) :
    List PointStruct :=
  client_delete_filter "document_id" (Value.str docId) store

/-- Modelled from the spec: the backend search returns stored points
ranked by similarity; the ranking is abstracted as an arbitrary
selection of hits whose payloads come from the store. -/
def hitsFromStore (store : List PointStruct) (hits : List SearchHit) : Prop :=
  ∀ h ∈ hits, ∃ p ∈ store, h.payload = p.payload

/-- C8.  `delete_by_document_id` removes exactly the points whose
payload's document identifier equals the given value: no surviving
point matches, every non-matching point survives, and when nothing
matches the store is unchanged (a no-op, not an error).  Consequently
any subsequent search over the store returns no match carrying that
document identifier in its metadata. -/
theorem delete_by_document_id_spec (store : List PointStruct) (docId : Str) :
    (∀ p ∈ delete_by_document_id store docId,
        matchesDocumentId docId p = false)
    ∧ (∀ p ∈ store, matchesDocumentId docId p = false →
        p ∈ delete_by_document_id store docId)
    ∧ ((∀ p ∈ store, matchesDocumentId docId p = false) →
        delete_by_document_id store docId = store)
    ∧ (∀ hits : List SearchHit,
        hitsFromStore (delete_by_document_id store docId) hits →
        ∀ d ∈ search hits,
          d.metadata.lookup "document_id" ≠ some (Value.str docId)) := by
  refine ⟨?_, ?_, ?_, ?_⟩
  · intro p hp
    have := (List.mem_filter.mp hp).2
    simpa [matchesDocumentId] using this
  · intro p hp hm
    refine List.mem_filter.mpr ⟨hp, ?_⟩
    simpa [matchesDocumentId] using hm
  · intro hall
    apply List.filter_eq_self.mpr
    intro p hp
    simpa [matchesDocumentId] using hall p hp
  · intro hits hfrom d hd
    obtain ⟨h, hh, rfl⟩ := List.mem_map.mp hd
    obtain ⟨p, hp, hpay⟩ := hfrom h hh
    have hmatch : matchesDocumentId docId p = false := by
      have := (List.mem_filter.mp hp).2
      simpa [matchesDocumentId] using this
    have hlk : p.payload.lookup "document_id" ≠ some (Value.str docId) := by
      simpa [matchesDocumentId] using hmatch
    have : (formatResult h).metadata.lookup "document_id" =
        h.payload.lookup "document_id" := by
      simpa [formatResult] using
        lookup_filter_ne "content" "document_id" (by decide) h.payload
    rw [this, hpay]
    exact hlk

/-- Witness for C8: a two-point store; deleting document d1 leaves the
d2 point, which still does not match, and a search whose hits come
from the surviving store never reports d1. -/
theorem delete_by_document_id_spec_witness :
    matchesDocumentId "d1".toList
        ⟨1, [], [("document_id", Value.str "d2".toList)]⟩ = false
    ∧ (formatResult ⟨[("document_id", Value.str "d2".toList)], 0⟩).metadata.lookup
        "document_id" ≠ some (Value.str "d1".toList) :=
  ⟨(delete_by_document_id_spec
      [⟨0, [], [("document_id", Value.str "d1".toList)]⟩,
       ⟨1, [], [("document_id", Value.str "d2".toList)]⟩] "d1".toList).1
      ⟨1, [], [("document_id", Value.str "d2".toList)]⟩ (by decide),
   (delete_by_document_id_spec
      [⟨0, [], [("document_id", Value.str "d1".toList)]⟩,
       ⟨1, [], [("document_id", Value.str "d2".toList)]⟩] "d1".toList).2.2.2
      [⟨[("document_id", Value.str "d2".toList)], 0⟩]
      (by
        intro h hh
        refine ⟨⟨1, [], [("document_id", Value.str "d2".toList)]⟩, by decide, ?_⟩
        simp only [List.mem_singleton] at hh
        rw [hh])
      (formatResult ⟨[("document_id", Value.str "d2".toList)], 0⟩)
      (by simp [search])⟩

/-! ### Upload entry point (routes.py upload_document, C9) -/

/-- The side effects of the upload endpoint, in execution order
(routes.py lines 68-116). -/
inductive UploadEvent where
  | makeUploadsDir
  | saveFile
  | sendEvent
  | processDocument
  | addDocuments
  | removeFile
deriving DecidableEq, Repr

/-- Outcome of the upload endpoint: HTTP result (error status code or
returned status string) plus the ordered trace of side effects. -/
structure UploadOutcome where
  response : Except Nat String
  events : List UploadEvent
deriving Repr

/-- `upload_document` (routes.py lines 51-116): rejects filenames not
ending in `.pdf` with HTTP 400 before anything else; otherwise saves
the file and either dispatches the asynchronous event (status
`processing`) or, when dispatch is not configured, processes
synchronously — chunking, storing and deleting the file — returning
status `completed`. -/
def upload_document (filename : Str) (send_ok : Bool) : UploadOutcome :=
  if (!(".pdf".toList.isSuffixOf filename) : Bool) then
    { response := .error 400, events := [] }
  else if send_ok then
    { response := .ok "processing"
      events := [.makeUploadsDir, .saveFile, .sendEvent] }
  else
    { response := .ok "completed"
      events := [.makeUploadsDir, .saveFile, .sendEvent,
                 .processDocument, .addDocuments, .removeFile] }

/-- C9.  A filename that does not end in `.pdf` is rejected with HTTP
400 before any pipeline stage runs: the trace of side effects is
empty — no identifier generation, file save, dispatch, text
extraction, chunking, storage or cleanup happens. -/
theorem upload_document_rejects_non_pdf (filename : Str) (send_ok : Bool)
    (h : (".pdf".toList.isSuffixOf filename) = false) :
    (upload_document filename send_ok).response = .error 400
    ∧ (upload_document filename send_ok).events = [] := by
  have h2 : (!(".pdf".toList.isSuffixOf filename) : Bool) = true := by
    rw [h]
    rfl
  unfold upload_document
  rw [if_pos h2]
  exact ⟨rfl, rfl⟩

/-- Witness for C9: uploading `notes.txt` is rejected with an empty
side-effect trace. -/
theorem upload_document_rejects_non_pdf_witness :
    (".pdf".toList.isSuffixOf "notes.txt".toList) = false
    ∧ (upload_document "notes.txt".toList true).response = .error 400
    ∧ (upload_document "notes.txt".toList true).events = [] :=
  ⟨by decide,
   (upload_document_rejects_non_pdf "notes.txt".toList true (by decide)).1,
   (upload_document_rejects_non_pdf "notes.txt".toList true (by decide)).2⟩

end RAG
